import Mathlib

/-
Shallow embedding of src/weather-mcp-server/weather_server.py.

Python values flowing through the server are loosely typed JSON data; we model
them with the inductive `JVal` below.  Dictionaries are association lists with
the first binding of a key authoritative (Python dicts have unique keys, so a
lookup of the first occurrence agrees with Python lookup).  The network fetch
(`fetch_weather_data`) performs IO; each tool is therefore modelled as a
function of the fetched `data`, which in the source is the value returned by
`fetch_weather_data`.  The resolved current date (`today_str`, produced by
`datetime.now` in lines 176-180) is likewise passed as a parameter: both the
timezone branch and the local fallback branch produce some date string, and the
downstream logic depends only on that string.
-/

/-- JSON-like values as decoded by `json.loads` (floats omitted: no claim
depends on float values, and the integers/strings/lists/objects here cover
every value the claims exercise). -/
inductive JVal where
  | null : JVal
  | int : Int → JVal
  | str : String → JVal
  | arr : List JVal → JVal
  | obj : List (String × JVal) → JVal

/-- A Python dict with string keys, as an association list. -/
abbrev Dict := List (String × JVal)

/-- Python `d.get(k)` (returns `None`, i.e. `none`, when the key is absent). -/
def dictGet? (d : Dict) (k : String) : Option JVal :=
  match d with
  | [] => none
  | (k0, v) :: rest => if k0 = k then some v else dictGet? rest k

/-- Python `d.get(k, dflt)`. -/
def dictGetD (d : Dict) (k : String) (dflt : JVal) : JVal :=
  (dictGet? d k).getD dflt

/-- Python `k in d`. -/
def hasKey (d : Dict) (k : String) : Bool :=
  (dictGet? d k).isSome

/-- Coerce a `JVal` expected to be an object to its bindings.  The source
assumes the provider returns dict-valued sections; a non-dict value is
modelled as the empty dict (the same value `data.get(section, \x7b\x7d)`
yields for an absent section). -/
def asObj : JVal → Dict
  | JVal.obj kvs => kvs
  | _ => []

/-- Coerce a `JVal` expected to be a list to its elements.  The source assumes
list-valued field arrays; a non-list value is modelled as the empty list (the
same value `section.get(field, [])` yields for an absent field). -/
def asArr : JVal → List JVal
  | JVal.arr xs => xs
  | _ => []

/-- Python `s.startswith(p)`: `p` is a code-point prefix of `s` (Python
strings are sequences of code points, `String.data` in this embedding). -/
def pyStartsWith (s p : String) : Bool := p.data.isPrefixOf s.data

/-- Python `s[:n]`: the first `n` code points of `s`. -/
def pySlice (s : String) (n : Nat) : String := String.mk (s.data.take n)

/-- Python `len(s)`: the number of code points of `s`. -/
def pyLen (s : String) : Nat := s.data.length

/-- Rendering of a value inside a Python f-string (`str(v)`).  Scalars render
exactly as in Python; lists/dicts would use Python repr, which no claim
observes, so they get fixed placeholders. -/
def pyStr : JVal → String
  | JVal.null => "None"
  | JVal.int n => toString n
  | JVal.str s => s
  | JVal.arr _ => "[...]"
  | JVal.obj _ => "\x7b...\x7d"

/-- The fixed WMO weather-code table of `weather_code_to_description`
(lines 39-81), in source order. -/
def weather_codes : List (Int × String) :=
  [ (0, "快晴"),
    (1, "おおむね晴れ"),
    (2, "晴れ時々曇り"),
    (3, "曇り"),
    (45, "霧"),
    (48, "着氷性の霧"),
    (51, "霧雨（弱い）"),
    (53, "霧雨（中程度）"),
    (55, "霧雨（強い）"),
    (56, "着氷性の霧雨（弱い）"),
    (57, "着氷性の霧雨（強い）"),
    (61, "雨（弱い）"),
    (63, "雨（中程度）"),
    (65, "雨（強い）"),
    (66, "着氷性の雨（弱い）"),
    (67, "着氷性の雨（強い）"),
    (71, "雪（弱い）"),
    (73, "雪（中程度）"),
    (75, "雪（強い）"),
    (77, "雪粒（スノーグレイン）"),
    (80, "にわか雨（弱い）"),
    (81, "にわか雨（中程度）"),
    (82, "にわか雨（強い）"),
    (85, "にわか雪（弱い）"),
    (86, "にわか雪（強い）"),
    (95, "雷雨（弱い〜中程度）"),
    (96, "雷雨（ひょうを伴う、弱い〜中程度）"),
    (99, "雷雨（ひょうを伴う、強い）") ]

/-- First-match lookup in an association list, i.e. Python dict lookup. -/
def alookup (code : Int) : List (Int × String) → Option String
  | [] => none
  | (k, v) :: rest => if k = code then some v else alookup code rest

/-- `weather_code_to_description` (lines 37-82):
`weather_codes.get(code, f"不明な天気コード: \x7bcode\x7d")`. -/
def weather_code_to_description (code : Int) : String :=
  match alookup code weather_codes with
  | some s => s
  | none => "不明な天気コード: " ++ toString code

/-- `weather_code_to_description` applied to a dynamically-typed value, as at
lines 108 and 137 and 189 where the argument comes from JSON data.  A non-int
value is not a key of the int-keyed table, so Python falls to the default
f-string. -/
def describeVal : JVal → String
  | JVal.int n => weather_code_to_description n
  | v => "不明な天気コード: " ++ pyStr v

/-- The error value returned by `fetch_weather_data` when the request fails
(line 35). -/
def fetchError (msg : String) : Dict :=
  [("error", JVal.str ("APIリクエストに失敗しました: " ++ msg))]

/-- `get_current_weather` (lines 85-110), as a function of the fetched
`data`.  `latitude` and `longitude` are passed through into the result
unchanged, so they are modelled as opaque `JVal` arguments. -/
def get_current_weather (latitude longitude : JVal) (location_name : String)
    (data : Dict) : Dict :=
  if hasKey data "error" then data
  else
    let current := asObj (dictGetD data "current" (JVal.obj []))
    [ ("location", JVal.str location_name),
      ("coordinates", JVal.obj [("latitude", latitude), ("longitude", longitude)]),
      ("current_time", dictGetD current "time" (JVal.str "")),
      ("temperature", JVal.str (pyStr (dictGetD current "temperature_2m" (JVal.str "N/A")) ++ "°C")),
      ("humidity", JVal.str (pyStr (dictGetD current "relative_humidity_2m" (JVal.str "N/A")) ++ "%")),
      ("wind_speed", JVal.str (pyStr (dictGetD current "wind_speed_10m" (JVal.str "N/A")) ++ " km/h")),
      ("weather", JVal.str (describeVal (dictGetD current "weather_code" (JVal.int 0)))),
      ("weather_code", dictGetD current "weather_code" (JVal.int 0)) ]

/-- One element of the `forecast` list (lines 135-141), for index `i` with
`times[i] = t`. -/
def dayRow (i : Nat) (t : JVal) (codes tmax tmin prec : List JVal) : JVal :=
  JVal.obj
    [ ("date", t),
      ("weather", JVal.str (match codes.get? i with
        | some c => describeVal c
        | none => "不明")),
      ("temperature_max", JVal.str (match tmax.get? i with
        | some v => pyStr v ++ "°C"
        | none => "N/A")),
      ("temperature_min", JVal.str (match tmin.get? i with
        | some v => pyStr v ++ "°C"
        | none => "N/A")),
      ("precipitation", JVal.str (match prec.get? i with
        | some v => pyStr v ++ "mm"
        | none => "N/A")) ]

/-- The loop `for i in range(len(times))` of lines 133-142, with `i` the index
of the first remaining element of `times`. -/
def forecastAux (codes tmax tmin prec : List JVal) : Nat → List JVal → List JVal
  | _, [] => []
  | i, t :: rest => dayRow i t codes tmax tmin prec :: forecastAux codes tmax tmin prec (i + 1) rest

/-- The `forecast` list built by `get_weekly_forecast` (lines 133-142). -/
def forecastRows (times codes tmax tmin prec : List JVal) : List JVal :=
  forecastAux codes tmax tmin prec 0 times

/-- `get_weekly_forecast` (lines 113-149), as a function of the fetched
`data`. -/
def get_weekly_forecast (latitude longitude : JVal) (location_name : String)
    (data : Dict) : Dict :=
  if hasKey data "error" then data
  else
    let daily := asObj (dictGetD data "daily" (JVal.obj []))
    let times := asArr (dictGetD daily "time" (JVal.arr []))
    let codes := asArr (dictGetD daily "weather_code" (JVal.arr []))
    let tmax := asArr (dictGetD daily "temperature_2m_max" (JVal.arr []))
    let tmin := asArr (dictGetD daily "temperature_2m_min" (JVal.arr []))
    let prec := asArr (dictGetD daily "precipitation_sum" (JVal.arr []))
    [ ("location", JVal.str location_name),
      ("coordinates", JVal.obj [("latitude", latitude), ("longitude", longitude)]),
      ("forecast_period", JVal.str "7日間"),
      ("forecast", JVal.arr (forecastRows times codes tmax tmin prec)) ]

/-- One `item` dict of `build_hours_for` (lines 186-192), for index `i` with
`times[i]` the string `t`. -/
def hourRow (i : Nat) (t : String) (temps codes precs : List JVal) : JVal :=
  JVal.obj
    [ ("time", JVal.str t),
      ("temperature", JVal.str (match temps.get? i with
        | some v => pyStr v ++ "°C"
        | none => "N/A")),
      ("weather", JVal.str (match codes.get? i with
        | some c => describeVal c
        | none => "不明")),
      ("weather_code", match codes.get? i with
        | some c => c
        | none => JVal.null),
      ("precipitation", JVal.str (match precs.get? i with
        | some v => pyStr v ++ "mm"
        | none => "N/A")) ]

/-- The loop `for i, t in enumerate(times)` of lines 184-193, with `i` the
index of the first remaining element of `times`.  A record is emitted exactly
for the elements that are strings starting with the day prefix `p`
(`isinstance(t, str) and t.startswith(day_prefix)`). -/
def buildHoursAux (temps codes precs : List JVal) (p : String) : Nat → List JVal → List JVal
  | _, [] => []
  | i, t :: rest =>
    (match t with
      | JVal.str s =>
        if pyStartsWith s p then [hourRow i s temps codes precs] else []
      | _ => []) ++ buildHoursAux temps codes precs p (i + 1) rest

/-- `build_hours_for(day_prefix)` (lines 182-194). -/
def build_hours_for (times temps codes precs : List JVal) (p : String) : List JVal :=
  buildHoursAux temps codes precs p 0 times

/-- Lines 196-202: the selected hours, with the `current.time` fallback when
the primary selection by `today_str` is empty.  `ct` is
`data.get("current", \x7b\x7d).get("time")`. -/
def todayHours (times temps codes precs : List JVal) (today_str : String)
    (ct : Option JVal) : List JVal :=
  let hours := build_hours_for times temps codes precs today_str
  if hours.isEmpty then
    match ct with
    | some (JVal.str s) =>
      if 10 ≤ pyLen s then build_hours_for times temps codes precs (pySlice s 10) else hours
    | _ => hours
  else hours

/-- The error value returned when the hourly `time` array is missing or empty
(line 172). -/
def noHourlyDataError : Dict := [("error", JVal.str "時間別データが見つかりません。")]

/-- `get_today_hourly_weather` (lines 152-209), as a function of the fetched
`data` and of the resolved current date `today_str` (lines 174-180: whichever
of the timezone branch or the local-time fallback ran, the rest of the
function sees only the resulting `YYYY-MM-DD` string). -/
def get_today_hourly_weather (latitude longitude : JVal) (location_name : String)
    (today_str : String) (data : Dict) : Dict :=
  if hasKey data "error" then data
  else
    let hourly := asObj (dictGetD data "hourly" (JVal.obj []))
    let times := asArr (dictGetD hourly "time" (JVal.arr []))
    let temps := asArr (dictGetD hourly "temperature_2m" (JVal.arr []))
    let codes := asArr (dictGetD hourly "weather_code" (JVal.arr []))
    let precs := asArr (dictGetD hourly "precipitation" (JVal.arr []))
    if times.isEmpty then noHourlyDataError
    else
      let ct := dictGet? (asObj (dictGetD data "current" (JVal.obj []))) "time"
      let hours := todayHours times temps codes precs today_str ct
      [ ("location", JVal.str location_name),
        ("coordinates", JVal.obj [("latitude", latitude), ("longitude", longitude)]),
        ("date", JVal.str today_str),
        ("hours", JVal.arr hours) ]

/-- Field access on a produced record (`r["time"]` etc. on the dicts built by
`build_hours_for`). -/
def objGet (r : JVal) (k : String) : Option JVal :=
  dictGet? (asObj r) k

/-- The timestamp of a produced hourly record, when it is a string (the only
shape `build_hours_for` ever emits). -/
def recTime (r : JVal) : Option String :=
  match objGet r "time" with
  | some (JVal.str s) => some s
  | _ => none

/-- The selection criterion of lines 184-185 applied to an already-built
record: its timestamp is a string starting with the prefix `p`. -/
def recMatches (p : String) (r : JVal) : Bool :=
  match recTime r with
  | some s => pyStartsWith s p
  | none => false

/-- Date selection at the record level: keep the records whose timestamp is a
string starting with the prefix `p`. -/
def selectRecs (rs : List JVal) (p : String) : List JVal :=
  rs.filter (recMatches p)

/-- The per-timestamp record list before any date filtering: one record per
string element of `times`, exactly the records among which lines 196-202
select.  Used to state the TodayFilter claims at the record level. -/
def allHourRowsAux (temps codes precs : List JVal) : Nat → List JVal → List JVal
  | _, [] => []
  | i, t :: rest =>
    (match t with
      | JVal.str s => [hourRow i s temps codes precs]
      | _ => []) ++ allHourRowsAux temps codes precs (i + 1) rest

/-- All hourly records (see `allHourRowsAux`). -/
def allHourRows (times temps codes precs : List JVal) : List JVal :=
  allHourRowsAux temps codes precs 0 times

/-- The selection of lines 196-202 expressed on a record list: primary
selection by `today_str`, and if it is empty the `current.time` fallback. -/
def todaySelect (rs : List JVal) (today_str : String) (ct : Option JVal) : List JVal :=
  let primary := selectRecs rs today_str
  if primary.isEmpty then
    match ct with
    | some (JVal.str s) =>
      if 10 ≤ pyLen s then selectRecs rs (pySlice s 10) else primary
    | _ => primary
  else primary

/-- The integer ranges that the spec names for the fixed table:
0-3, 45, 48, 51-57, 61-67, 71-77, 80-86, 95-99. -/
def claimedRange (c : Int) : Bool :=
  (0 ≤ c && c ≤ 3) || c = 45 || c = 48 || (51 ≤ c && c ≤ 57) || (61 ≤ c && c ≤ 67) ||
    (71 ≤ c && c ≤ 77) || (80 ≤ c && c ≤ 86) || (95 ≤ c && c ≤ 99)

theorem alookup_mem_keys (c : Int) (l : List (Int × String)) (s : String)
    (h : alookup c l = some s) : c ∈ l.map Prod.fst := by
  induction l with
  | nil => simp [alookup] at h
  | cons p rest ih =>
    obtain ⟨k, v⟩ := p
    by_cases hk : k = c
    · subst hk; simp
    · rw [alookup] at h
      simp only [hk, if_false] at h
      simp [ih h]

/-- Claim C1 (counterexample): 52 lies inside the claimed range 51-57, yet it
is not a key of the fixed table, and `weather_code_to_description 52` is the
unknown-code string rather than any table label. -/
theorem C1_counterexample :
    claimedRange 52 = true ∧
    (52 : Int) ∉ weather_codes.map Prod.fst ∧
    weather_code_to_description 52 ∉ weather_codes.map Prod.snd ∧
    weather_code_to_description 52 = "不明な天気コード: 52" := by
  refine ⟨rfl, by decide, by decide, rfl⟩

/-- Claim C1 (amended): `weather_code_to_description` is total over the
integers; every code that is a key of the fixed table (0,1,2,3,45,48,51,53,
55,56,57,61,63,65,66,67,71,73,75,77,80,81,82,85,86,95,96,99) returns its
table label, and every other integer, negative values included, returns the
formatted unknown-code string containing that integer. -/
theorem C1_total_lookup (c : Int) :
    (∀ s, (c, s) ∈ weather_codes → weather_code_to_description c = s) ∧
    (c ∉ weather_codes.map Prod.fst →
      weather_code_to_description c = "不明な天気コード: " ++ toString c) := by
  constructor
  · intro s hs
    simp only [weather_codes] at hs
    fin_cases hs <;> rfl
  · intro hc
    rw [weather_code_to_description]
    cases hl : alookup c weather_codes with
    | none => rfl
    | some s => exact absurd (alookup_mem_keys c weather_codes s hl) hc

/-- Claim C1 witness: the amended theorem evaluated at the in-table code 95
and at the out-of-table codes 100 and -1. -/
theorem C1_total_lookup_witness :
    weather_code_to_description 95 = "雷雨（弱い〜中程度）" ∧
    weather_code_to_description 100 = "不明な天気コード: " ++ toString (100 : Int) ∧
    weather_code_to_description (-1) = "不明な天気コード: " ++ toString (-1 : Int) :=
  ⟨(C1_total_lookup 95).1 _ (by decide),
   (C1_total_lookup 100).2 (by decide),
   (C1_total_lookup (-1)).2 (by decide)⟩

/-- Claim C4: a fetch result that contains an "error" key is returned
unchanged, with no key added, removed or modified, by each of the three
tools. -/
theorem C4_error_passthrough (lat lon : JVal) (name today : String) (data : Dict)
    (h : hasKey data "error" = true) :
    get_current_weather lat lon name data = data ∧
    get_weekly_forecast lat lon name data = data ∧
    get_today_hourly_weather lat lon name today data = data := by
  refine ⟨?_, ?_, ?_⟩ <;>
    simp [get_current_weather, get_weekly_forecast, get_today_hourly_weather, h]

/-- Claim C4 witness: the failure value of `fetch_weather_data`, which is
exactly the one-key mapping with the error message, passes through all three
tools unchanged. -/
theorem C4_error_passthrough_witness :
    hasKey (fetchError "network down") "error" = true ∧
    get_current_weather JVal.null JVal.null "loc" (fetchError "network down")
      = fetchError "network down" ∧
    get_weekly_forecast JVal.null JVal.null "loc" (fetchError "network down")
      = fetchError "network down" ∧
    get_today_hourly_weather JVal.null JVal.null "loc" "2024-01-01" (fetchError "network down")
      = fetchError "network down" := by
  refine ⟨rfl, ?_⟩
  exact C4_error_passthrough JVal.null JVal.null "loc" "2024-01-01" (fetchError "network down") rfl

/-- Claim C10: when the current-conditions section has no "weather_code" key,
`get_current_weather` reports `weather_code = 0` and the description of code 0
("快晴"), and its whole output is identical to the output for the same section
with an explicit `weather_code = 0` — the two cases are indistinguishable at
the public interface. -/
theorem C10_missing_code_is_zero (lat lon : JVal) (name : String) (current : Dict)
    (h : dictGet? current "weather_code" = none) :
    dictGet? (get_current_weather lat lon name [("current", JVal.obj current)]) "weather_code"
      = some (JVal.int 0) ∧
    dictGet? (get_current_weather lat lon name [("current", JVal.obj current)]) "weather"
      = some (JVal.str "快晴") ∧
    get_current_weather lat lon name [("current", JVal.obj current)]
      = get_current_weather lat lon name
          [("current", JVal.obj (("weather_code", JVal.int 0) :: current))] := by
  refine ⟨?_, ?_, ?_⟩ <;>
    simp [get_current_weather, hasKey, dictGet?, dictGetD, asObj, h, describeVal,
      weather_code_to_description, alookup, weather_codes]

/-- Claim C10 witness: the theorem evaluated on a current section holding only
a timestamp. -/
theorem C10_missing_code_is_zero_witness :
    dictGet? (get_current_weather JVal.null JVal.null "loc"
        [("current", JVal.obj [("time", JVal.str "2024-01-01T00:00")])]) "weather_code"
      = some (JVal.int 0) ∧
    dictGet? (get_current_weather JVal.null JVal.null "loc"
        [("current", JVal.obj [("time", JVal.str "2024-01-01T00:00")])]) "weather"
      = some (JVal.str "快晴") :=
  ⟨(C10_missing_code_is_zero JVal.null JVal.null "loc"
      [("time", JVal.str "2024-01-01T00:00")] rfl).1,
   (C10_missing_code_is_zero JVal.null JVal.null "loc"
      [("time", JVal.str "2024-01-01T00:00")] rfl).2.1⟩

/-- Claim C2 (counterexample): in `get_current_weather`, an absent raw value
still gets the unit suffix appended to the sentinel — the temperature,
humidity and wind-speed fields read "N/A°C", "N/A%" and "N/A km/h", not the
bare sentinel "N/A" that the claim requires. -/
theorem C2_counterexample :
    dictGet? (get_current_weather JVal.null JVal.null "loc" [("current", JVal.obj [])])
        "temperature" = some (JVal.str "N/A°C") ∧
    dictGet? (get_current_weather JVal.null JVal.null "loc" [("current", JVal.obj [])])
        "humidity" = some (JVal.str "N/A%") ∧
    dictGet? (get_current_weather JVal.null JVal.null "loc" [("current", JVal.obj [])])
        "wind_speed" = some (JVal.str "N/A km/h") ∧
    ("N/A°C" : String) ≠ "N/A" :=
  ⟨rfl, rfl, rfl, by decide⟩

/-- Claim C2 (amended): present raw values are rendered as the value followed
by the unit suffix in every tool; an absent value yields the bare sentinel
"N/A" in the daily and hourly record builders, while `get_current_weather`
appends the unit suffix even to the sentinel ("N/A°C", "N/A%", "N/A km/h"). -/
theorem C2_unit_formatting (i : Nat) (t : String) (d : JVal)
    (temps codes precs tmax tmin prec : List JVal)
    (lat lon : JVal) (name : String) (current : Dict) :
    (∀ v, temps.get? i = some v →
      objGet (hourRow i t temps codes precs) "temperature" = some (JVal.str (pyStr v ++ "°C"))) ∧
    (temps.get? i = none →
      objGet (hourRow i t temps codes precs) "temperature" = some (JVal.str "N/A")) ∧
    (∀ v, precs.get? i = some v →
      objGet (hourRow i t temps codes precs) "precipitation" = some (JVal.str (pyStr v ++ "mm"))) ∧
    (precs.get? i = none →
      objGet (hourRow i t temps codes precs) "precipitation" = some (JVal.str "N/A")) ∧
    (∀ v, tmax.get? i = some v →
      objGet (dayRow i d codes tmax tmin prec) "temperature_max" = some (JVal.str (pyStr v ++ "°C"))) ∧
    (tmax.get? i = none →
      objGet (dayRow i d codes tmax tmin prec) "temperature_max" = some (JVal.str "N/A")) ∧
    (∀ v, tmin.get? i = some v →
      objGet (dayRow i d codes tmax tmin prec) "temperature_min" = some (JVal.str (pyStr v ++ "°C"))) ∧
    (tmin.get? i = none →
      objGet (dayRow i d codes tmax tmin prec) "temperature_min" = some (JVal.str "N/A")) ∧
    (∀ v, prec.get? i = some v →
      objGet (dayRow i d codes tmax tmin prec) "precipitation" = some (JVal.str (pyStr v ++ "mm"))) ∧
    (prec.get? i = none →
      objGet (dayRow i d codes tmax tmin prec) "precipitation" = some (JVal.str "N/A")) ∧
    (∀ v, dictGet? current "temperature_2m" = some v →
      dictGet? (get_current_weather lat lon name [("current", JVal.obj current)]) "temperature"
        = some (JVal.str (pyStr v ++ "°C"))) ∧
    (dictGet? current "temperature_2m" = none →
      dictGet? (get_current_weather lat lon name [("current", JVal.obj current)]) "temperature"
        = some (JVal.str "N/A°C")) ∧
    (∀ v, dictGet? current "relative_humidity_2m" = some v →
      dictGet? (get_current_weather lat lon name [("current", JVal.obj current)]) "humidity"
        = some (JVal.str (pyStr v ++ "%"))) ∧
    (dictGet? current "relative_humidity_2m" = none →
      dictGet? (get_current_weather lat lon name [("current", JVal.obj current)]) "humidity"
        = some (JVal.str "N/A%")) ∧
    (∀ v, dictGet? current "wind_speed_10m" = some v →
      dictGet? (get_current_weather lat lon name [("current", JVal.obj current)]) "wind_speed"
        = some (JVal.str (pyStr v ++ " km/h"))) ∧
    (dictGet? current "wind_speed_10m" = none →
      dictGet? (get_current_weather lat lon name [("current", JVal.obj current)]) "wind_speed"
        = some (JVal.str "N/A km/h")) := by
  refine ⟨?_, ?_, ?_, ?_, ?_, ?_, ?_, ?_, ?_, ?_, ?_, ?_, ?_, ?_, ?_, ?_⟩ <;>
    intros <;>
    simp_all [hourRow, dayRow, objGet, asObj, dictGet?, dictGetD,
      get_current_weather, hasKey, pyStr, List.getElem?_eq_none]

/-- Claim C2 witness: the amended theorem evaluated on concrete rows (present
values rendered with units, short arrays giving the bare sentinel) and on a
current section with every raw value absent (sentinel with suffix). -/
theorem C2_unit_formatting_witness :
    objGet (hourRow 0 "2024-01-01T00:00" [JVal.int 25] [] []) "temperature"
      = some (JVal.str "25°C") ∧
    objGet (hourRow 0 "2024-01-01T00:00" [JVal.int 25] [] []) "precipitation"
      = some (JVal.str "N/A") ∧
    objGet (dayRow 0 (JVal.str "2024-06-01") [] [JVal.int 30] [] [JVal.int 5]) "temperature_max"
      = some (JVal.str "30°C") ∧
    objGet (dayRow 0 (JVal.str "2024-06-01") [] [JVal.int 30] [] [JVal.int 5]) "temperature_min"
      = some (JVal.str "N/A") ∧
    objGet (dayRow 0 (JVal.str "2024-06-01") [] [JVal.int 30] [] [JVal.int 5]) "precipitation"
      = some (JVal.str "5mm") ∧
    dictGet? (get_current_weather JVal.null JVal.null "loc" [("current", JVal.obj [])])
        "temperature" = some (JVal.str "N/A°C") ∧
    dictGet? (get_current_weather JVal.null JVal.null "loc" [("current", JVal.obj [])])
        "humidity" = some (JVal.str "N/A%") ∧
    dictGet? (get_current_weather JVal.null JVal.null "loc" [("current", JVal.obj [])])
        "wind_speed" = some (JVal.str "N/A km/h") := by
  obtain ⟨h1, h2, h3, h4, h5, h6, h7, h8, h9, h10, h11, h12, h13, h14, h15, h16⟩ :=
    C2_unit_formatting 0 "2024-01-01T00:00" (JVal.str "2024-06-01")
      [JVal.int 25] [] [] [JVal.int 30] [] [JVal.int 5] JVal.null JVal.null "loc" []
  exact ⟨h1 _ rfl, h4 rfl, h5 _ rfl, h8 rfl, h9 _ rfl, h12 rfl, h14 rfl, h16 rfl⟩

/-- Claim C7 (counterexample): in a daily record whose weather-code array is
short, the description is the sentinel "不明", not the description of code 0
("快晴") that the claim requires for an absent code. -/
theorem C7_counterexample :
    dictGet? (get_weekly_forecast JVal.null JVal.null "loc"
        [("daily", JVal.obj [("time", JVal.arr [JVal.str "2024-06-01"])])]) "forecast"
      = some (JVal.arr [JVal.obj
          [ ("date", JVal.str "2024-06-01"),
            ("weather", JVal.str "不明"),
            ("temperature_max", JVal.str "N/A"),
            ("temperature_min", JVal.str "N/A"),
            ("precipitation", JVal.str "N/A") ]]) ∧
    weather_code_to_description 0 = "快晴" ∧
    ("不明" : String) ≠ "快晴" :=
  ⟨rfl, rfl, by decide⟩

/-- Claim C7 (amended): a present raw code is passed through the
weather-code lookup in all three record shapes; an absent code defaults to 0
(hence "快晴") only in the current-conditions record, while the daily and
hourly builders use the sentinel "不明" for the description (and null for the
hourly raw code) when the code array is short. -/
theorem C7_description_policy (i : Nat) (t : String) (d : JVal)
    (temps codes precs tmax tmin prec : List JVal)
    (lat lon : JVal) (name : String) (current : Dict) :
    (∀ c, codes.get? i = some c →
      objGet (hourRow i t temps codes precs) "weather" = some (JVal.str (describeVal c)) ∧
      objGet (hourRow i t temps codes precs) "weather_code" = some c) ∧
    (codes.get? i = none →
      objGet (hourRow i t temps codes precs) "weather" = some (JVal.str "不明") ∧
      objGet (hourRow i t temps codes precs) "weather_code" = some JVal.null) ∧
    (∀ c, codes.get? i = some c →
      objGet (dayRow i d codes tmax tmin prec) "weather" = some (JVal.str (describeVal c))) ∧
    (codes.get? i = none →
      objGet (dayRow i d codes tmax tmin prec) "weather" = some (JVal.str "不明")) ∧
    (∀ c, dictGet? current "weather_code" = some c →
      dictGet? (get_current_weather lat lon name [("current", JVal.obj current)]) "weather"
        = some (JVal.str (describeVal c))) ∧
    (dictGet? current "weather_code" = none →
      dictGet? (get_current_weather lat lon name [("current", JVal.obj current)]) "weather"
        = some (JVal.str (weather_code_to_description 0))) := by
  refine ⟨?_, ?_, ?_, ?_, ?_, ?_⟩ <;>
    intros <;>
    simp_all [hourRow, dayRow, objGet, asObj, dictGet?, dictGetD,
      get_current_weather, hasKey, describeVal, List.getElem?_eq_none]

/-- Claim C7 witness: the amended theorem evaluated on a present code 61
(label "雨（弱い）"), on a short code array (sentinel "不明" and null code),
and on current sections with the code present and absent. -/
theorem C7_description_policy_witness :
    objGet (hourRow 0 "2024-01-01T00:00" [] [JVal.int 61] []) "weather"
      = some (JVal.str (describeVal (JVal.int 61))) ∧
    objGet (hourRow 0 "2024-01-01T00:00" [] [] []) "weather"
      = some (JVal.str "不明") ∧
    objGet (hourRow 0 "2024-01-01T00:00" [] [] []) "weather_code" = some JVal.null ∧
    objGet (dayRow 0 (JVal.str "2024-06-01") [] [] [] []) "weather"
      = some (JVal.str "不明") ∧
    dictGet? (get_current_weather JVal.null JVal.null "loc" [("current", JVal.obj [])])
        "weather" = some (JVal.str (weather_code_to_description 0)) := by
  refine ⟨((C7_description_policy 0 "2024-01-01T00:00" (JVal.str "2024-06-01")
      [] [JVal.int 61] [] [] [] [] JVal.null JVal.null "loc" []).1 _ rfl).1,
    ?_, ?_, ?_, ?_⟩
  · exact ((C7_description_policy 0 "2024-01-01T00:00" (JVal.str "2024-06-01")
      [] [] [] [] [] [] JVal.null JVal.null "loc" []).2.1 rfl).1
  · exact ((C7_description_policy 0 "2024-01-01T00:00" (JVal.str "2024-06-01")
      [] [] [] [] [] [] JVal.null JVal.null "loc" []).2.1 rfl).2
  · exact (C7_description_policy 0 "2024-01-01T00:00" (JVal.str "2024-06-01")
      [] [] [] [] [] [] JVal.null JVal.null "loc" []).2.2.2.1 rfl
  · exact (C7_description_policy 0 "2024-01-01T00:00" (JVal.str "2024-06-01")
      [] [] [] [] [] [] JVal.null JVal.null "loc" []).2.2.2.2.2 rfl

/-- The selection criterion of lines 184-185 on a raw `times` element: a
string starting with the day prefix `p`. -/
def isTodayStr (p : String) : JVal → Bool
  | JVal.str s => pyStartsWith s p
  | _ => false

theorem forecastAux_length (codes tmax tmin prec : List JVal) (ts : List JVal) :
    ∀ i, (forecastAux codes tmax tmin prec i ts).length = ts.length := by
  induction ts with
  | nil => intro i; rfl
  | cons t rest ih => intro i; simp [forecastAux, ih (i + 1)]

theorem buildHoursAux_length (temps codes precs : List JVal) (p : String) (ts : List JVal) :
    ∀ i, (buildHoursAux temps codes precs p i ts).length = ts.countP (isTodayStr p) := by
  induction ts with
  | nil => intro i; simp [buildHoursAux]
  | cons t rest ih =>
    intro i
    cases t <;> simp [buildHoursAux, List.countP_cons, isTodayStr, ih (i + 1)]
    split <;> simp [Nat.add_comm]

/-- Claim C3 (counterexample): with two hourly timestamps of which only the
first matches the day prefix, `build_hours_for` yields one record while the
time array has length two — the hourly produced sequence does not have
`len(time)` records. -/
theorem C3_counterexample :
    (build_hours_for [JVal.str "2024-01-01T00:00", JVal.str "2024-01-02T00:00"]
        [] [] [] "2024-01-01").length = 1 ∧
    ([JVal.str "2024-01-01T00:00", JVal.str "2024-01-02T00:00"] : List JVal).length = 2 :=
  ⟨rfl, rfl⟩

/-- Claim C3 (amended): record building never fails on ragged input — the
daily forecast has exactly `len(time)` records, the hourly builder has exactly
one record per `time` entry that is a string starting with the day prefix
(hence at most `len(time)`), every field read past the end of its array
degrades to its sentinel ("N/A" for unit-suffixed values, "不明" for the
description, null for the raw hourly code), and an empty time array yields an
empty sequence. -/
theorem C3_ragged_totality (times temps codes precs tmax tmin prec : List JVal)
    (p : String) (i : Nat) (t : String) (d : JVal) :
    (forecastRows times codes tmax tmin prec).length = times.length ∧
    (build_hours_for times temps codes precs p).length = times.countP (isTodayStr p) ∧
    (codes.get? i = none →
      objGet (dayRow i d codes tmax tmin prec) "weather" = some (JVal.str "不明") ∧
      objGet (hourRow i t temps codes precs) "weather" = some (JVal.str "不明") ∧
      objGet (hourRow i t temps codes precs) "weather_code" = some JVal.null) ∧
    (tmax.get? i = none →
      objGet (dayRow i d codes tmax tmin prec) "temperature_max" = some (JVal.str "N/A")) ∧
    (tmin.get? i = none →
      objGet (dayRow i d codes tmax tmin prec) "temperature_min" = some (JVal.str "N/A")) ∧
    (prec.get? i = none →
      objGet (dayRow i d codes tmax tmin prec) "precipitation" = some (JVal.str "N/A")) ∧
    (temps.get? i = none →
      objGet (hourRow i t temps codes precs) "temperature" = some (JVal.str "N/A")) ∧
    (precs.get? i = none →
      objGet (hourRow i t temps codes precs) "precipitation" = some (JVal.str "N/A")) ∧
    forecastRows [] codes tmax tmin prec = [] ∧
    build_hours_for [] temps codes precs p = [] := by
  refine ⟨forecastAux_length codes tmax tmin prec times 0,
    buildHoursAux_length temps codes precs p times 0, ?_, ?_, ?_, ?_, ?_, ?_, rfl, rfl⟩ <;>
    intros <;>
    simp_all [hourRow, dayRow, objGet, asObj, dictGet?, List.getElem?_eq_none]

/-- Claim C3 witness: the spec's ragged example — three dates with a single
temperature entry give three daily records whose later entries degrade to
"N/A"; an all-matching hourly prefix gives `len(time)` records; a
non-matching entry is dropped rather than failing. -/
theorem C3_ragged_totality_witness :
    (forecastRows [JVal.str "2024-06-01", JVal.str "2024-06-02", JVal.str "2024-06-03"]
        [] [JVal.int 25] [] []).length = 3 ∧
    objGet (dayRow 1 (JVal.str "2024-06-02") [] [JVal.int 25] [] []) "temperature_max"
      = some (JVal.str "N/A") ∧
    objGet (dayRow 2 (JVal.str "2024-06-03") [] [JVal.int 25] [] []) "temperature_max"
      = some (JVal.str "N/A") ∧
    (build_hours_for [JVal.str "2024-06-01T00:00", JVal.str "2024-06-01T01:00"]
        [] [] [] "2024-06-01").length = 2 := by
  refine ⟨(C3_ragged_totality
      [JVal.str "2024-06-01", JVal.str "2024-06-02", JVal.str "2024-06-03"]
      [] [] [] [JVal.int 25] [] [] "x" 0 "t" JVal.null).1,
    (C3_ragged_totality [] [] [] [] [JVal.int 25] [] [] "x" 1 "t"
      (JVal.str "2024-06-02")).2.2.2.1 rfl,
    (C3_ragged_totality [] [] [] [] [JVal.int 25] [] [] "x" 2 "t"
      (JVal.str "2024-06-03")).2.2.2.1 rfl,
    (C3_ragged_totality [JVal.str "2024-06-01T00:00", JVal.str "2024-06-01T01:00"]
      [] [] [] [] [] [] "2024-06-01" 0 "t" JVal.null).2.1⟩

/-- Claim C5: when the primary selection by the resolved date is empty and
`current.time` is a string of at least 10 characters, the selection is
retried with the first 10 characters of `current.time` as the day prefix. -/
theorem C5_current_time_fallback (lat lon : JVal) (name today s : String) (data : Dict)
    (hourly current : Dict) (times temps codes precs : List JVal)
    (hne : hasKey data "error" = false)
    (hh : dictGet? data "hourly" = some (JVal.obj hourly))
    (hc : dictGet? data "current" = some (JVal.obj current))
    (hct : dictGet? current "time" = some (JVal.str s))
    (ht : dictGet? hourly "time" = some (JVal.arr times))
    (htm : asArr (dictGetD hourly "temperature_2m" (JVal.arr [])) = temps)
    (hcd : asArr (dictGetD hourly "weather_code" (JVal.arr [])) = codes)
    (hpr : asArr (dictGetD hourly "precipitation" (JVal.arr [])) = precs)
    (hnonempty : times ≠ [])
    (hempty : build_hours_for times temps codes precs today = [])
    (hlen : 10 ≤ pyLen s) :
    dictGet? (get_today_hourly_weather lat lon name today data) "hours"
      = some (JVal.arr (build_hours_for times temps codes precs (pySlice s 10))) := by
  cases times with
  | nil => exact absurd rfl hnonempty
  | cons t0 rest =>
    simp_all [get_today_hourly_weather, dictGetD, asObj, asArr, todayHours, dictGet?]

/-- Claim C5 witness: hourly records all dated 2024-01-02, a resolved today of
2024-01-03 selecting nothing, and current.time 2024-01-02T10:00 — the
2024-01-02-prefixed records are returned. -/
theorem C5_current_time_fallback_witness :
    dictGet? (get_today_hourly_weather JVal.null JVal.null "loc" "2024-01-03"
        [ ("hourly", JVal.obj
            [ ("time", JVal.arr [JVal.str "2024-01-02T00:00", JVal.str "2024-01-02T01:00"]),
              ("temperature_2m", JVal.arr [JVal.int 10, JVal.int 11]),
              ("weather_code", JVal.arr [JVal.int 0, JVal.int 1]),
              ("precipitation", JVal.arr [JVal.int 0, JVal.int 0]) ]),
          ("current", JVal.obj [("time", JVal.str "2024-01-02T10:00")]) ]) "hours"
      = some (JVal.arr (build_hours_for
          [JVal.str "2024-01-02T00:00", JVal.str "2024-01-02T01:00"]
          [JVal.int 10, JVal.int 11] [JVal.int 0, JVal.int 1] [JVal.int 0, JVal.int 0]
          (pySlice "2024-01-02T10:00" 10))) ∧
    build_hours_for [JVal.str "2024-01-02T00:00", JVal.str "2024-01-02T01:00"]
        [JVal.int 10, JVal.int 11] [JVal.int 0, JVal.int 1] [JVal.int 0, JVal.int 0]
        (pySlice "2024-01-02T10:00" 10)
      = [ hourRow 0 "2024-01-02T00:00" [JVal.int 10, JVal.int 11] [JVal.int 0, JVal.int 1]
            [JVal.int 0, JVal.int 0],
          hourRow 1 "2024-01-02T01:00" [JVal.int 10, JVal.int 11] [JVal.int 0, JVal.int 1]
            [JVal.int 0, JVal.int 0] ] := by
  refine ⟨C5_current_time_fallback JVal.null JVal.null "loc" "2024-01-03" "2024-01-02T10:00" _
      [ ("time", JVal.arr [JVal.str "2024-01-02T00:00", JVal.str "2024-01-02T01:00"]),
        ("temperature_2m", JVal.arr [JVal.int 10, JVal.int 11]),
        ("weather_code", JVal.arr [JVal.int 0, JVal.int 1]),
        ("precipitation", JVal.arr [JVal.int 0, JVal.int 0]) ]
      [("time", JVal.str "2024-01-02T10:00")]
      [JVal.str "2024-01-02T00:00", JVal.str "2024-01-02T01:00"]
      [JVal.int 10, JVal.int 11] [JVal.int 0, JVal.int 1] [JVal.int 0, JVal.int 0]
      rfl rfl rfl rfl rfl rfl rfl rfl (by simp) rfl (by decide), rfl⟩

/-- Claim C6: with no upstream error, `get_today_hourly_weather` returns the
no-hourly-data error exactly when the hourly time array is empty or absent;
with a non-empty time array the result is the normal mapping, whose hours may
be empty when nothing matches even after the fallback — that case is not an
error. -/
theorem C6_error_iff_no_times (lat lon : JVal) (name today : String) (data : Dict)
    (times temps codes precs : List JVal) (ct : Option JVal)
    (hne : hasKey data "error" = false)
    (ht : asArr (dictGetD (asObj (dictGetD data "hourly" (JVal.obj []))) "time" (JVal.arr []))
      = times)
    (htm : asArr (dictGetD (asObj (dictGetD data "hourly" (JVal.obj []))) "temperature_2m"
      (JVal.arr [])) = temps)
    (hcd : asArr (dictGetD (asObj (dictGetD data "hourly" (JVal.obj []))) "weather_code"
      (JVal.arr [])) = codes)
    (hpr : asArr (dictGetD (asObj (dictGetD data "hourly" (JVal.obj []))) "precipitation"
      (JVal.arr [])) = precs)
    (hct : dictGet? (asObj (dictGetD data "current" (JVal.obj []))) "time" = ct) :
    (times = [] → get_today_hourly_weather lat lon name today data = noHourlyDataError) ∧
    (times ≠ [] →
      dictGet? (get_today_hourly_weather lat lon name today data) "error" = none ∧
      dictGet? (get_today_hourly_weather lat lon name today data) "hours"
        = some (JVal.arr (todayHours times temps codes precs today ct))) := by
  constructor
  · intro hnil
    subst hnil
    simp_all [get_today_hourly_weather]
  · intro hnonempty
    cases times with
    | nil => exact absurd rfl hnonempty
    | cons t0 rest => simp_all [get_today_hourly_weather, dictGet?]

/-- Claim C6 witness: an empty hourly section yields exactly the
no-hourly-data error; a non-empty time array whose records match neither the
resolved date nor any fallback yields a normal result with empty hours and no
error key. -/
theorem C6_error_iff_no_times_witness :
    get_today_hourly_weather JVal.null JVal.null "loc" "2024-01-03"
        [("hourly", JVal.obj [])] = noHourlyDataError ∧
    dictGet? (get_today_hourly_weather JVal.null JVal.null "loc" "2024-01-03"
        [("hourly", JVal.obj [("time", JVal.arr [JVal.str "2024-01-02T00:00"])])]) "error"
      = none ∧
    dictGet? (get_today_hourly_weather JVal.null JVal.null "loc" "2024-01-03"
        [("hourly", JVal.obj [("time", JVal.arr [JVal.str "2024-01-02T00:00"])])]) "hours"
      = some (JVal.arr []) := by
  refine ⟨(C6_error_iff_no_times JVal.null JVal.null "loc" "2024-01-03"
      [("hourly", JVal.obj [])] [] [] [] [] none rfl rfl rfl rfl rfl rfl).1 rfl, ?_, ?_⟩
  · exact ((C6_error_iff_no_times JVal.null JVal.null "loc" "2024-01-03"
      [("hourly", JVal.obj [("time", JVal.arr [JVal.str "2024-01-02T00:00"])])]
      [JVal.str "2024-01-02T00:00"] [] [] [] none rfl rfl rfl rfl rfl rfl).2
      (by simp)).1
  · exact ((C6_error_iff_no_times JVal.null JVal.null "loc" "2024-01-03"
      [("hourly", JVal.obj [("time", JVal.arr [JVal.str "2024-01-02T00:00"])])]
      [JVal.str "2024-01-02T00:00"] [] [] [] none rfl rfl rfl rfl rfl rfl).2
      (by simp)).2

/-- Claim C9: the `date` field of a successful `get_today_hourly_weather`
result is always the originally resolved `today_str`, regardless of whether
the hours were selected by it or by the current-time fallback. -/
theorem C9_date_is_resolved_today (lat lon : JVal) (name today : String) (data : Dict)
    (times : List JVal)
    (hne : hasKey data "error" = false)
    (ht : asArr (dictGetD (asObj (dictGetD data "hourly" (JVal.obj []))) "time" (JVal.arr []))
      = times)
    (hnonempty : times ≠ []) :
    dictGet? (get_today_hourly_weather lat lon name today data) "date"
      = some (JVal.str today) := by
  cases times with
  | nil => exact absurd rfl hnonempty
  | cons t0 rest => simp_all [get_today_hourly_weather, dictGet?]

/-- Claim C9 witness: in the fallback scenario the returned date is the
resolved 2024-01-03 even though every returned hour starts with 2024-01-02,
so the date is not a prefix of any returned timestamp. -/
theorem C9_date_is_resolved_today_witness :
    dictGet? (get_today_hourly_weather JVal.null JVal.null "loc" "2024-01-03"
        [ ("hourly", JVal.obj
            [("time", JVal.arr [JVal.str "2024-01-02T00:00", JVal.str "2024-01-02T01:00"])]),
          ("current", JVal.obj [("time", JVal.str "2024-01-02T10:00")]) ]) "date"
      = some (JVal.str "2024-01-03") ∧
    dictGet? (get_today_hourly_weather JVal.null JVal.null "loc" "2024-01-03"
        [ ("hourly", JVal.obj
            [("time", JVal.arr [JVal.str "2024-01-02T00:00", JVal.str "2024-01-02T01:00"])]),
          ("current", JVal.obj [("time", JVal.str "2024-01-02T10:00")]) ]) "hours"
      = some (JVal.arr
          [ hourRow 0 "2024-01-02T00:00" [] [] [], hourRow 1 "2024-01-02T01:00" [] [] [] ]) ∧
    pyStartsWith "2024-01-02T00:00" "2024-01-03" = false ∧
    pyStartsWith "2024-01-02T01:00" "2024-01-03" = false :=
  ⟨C9_date_is_resolved_today JVal.null JVal.null "loc" "2024-01-03" _
      [JVal.str "2024-01-02T00:00", JVal.str "2024-01-02T01:00"] rfl rfl (by simp),
    rfl, rfl, rfl⟩

theorem recTime_hourRow (i : Nat) (s : String) (temps codes precs : List JVal) :
    recTime (hourRow i s temps codes precs) = some s := by
  simp [recTime, hourRow, objGet, asObj, dictGet?]

theorem selectRecs_allHourRowsAux (temps codes precs : List JVal) (p : String)
    (ts : List JVal) :
    ∀ i, selectRecs (allHourRowsAux temps codes precs i ts) p
      = buildHoursAux temps codes precs p i ts := by
  induction ts with
  | nil => intro i; rfl
  | cons t rest ih =>
    intro i
    have ih' := ih (i + 1)
    rw [selectRecs] at ih'
    cases t <;>
      simp [allHourRowsAux, buildHoursAux, selectRecs, List.filter_append,
        recMatches, recTime_hourRow, ih']
    split <;> rename_i hmatch <;>
      simp [List.filter_cons, recMatches, recTime_hourRow, hmatch, ih']

theorem selectRecs_build (times temps codes precs : List JVal) (p : String) :
    selectRecs (allHourRows times temps codes precs) p
      = build_hours_for times temps codes precs p :=
  selectRecs_allHourRowsAux temps codes precs p times 0

theorem selectRecs_idem (rs : List JVal) (p : String) :
    selectRecs (selectRecs rs p) p = selectRecs rs p := by
  simp [selectRecs, List.filter_filter]

theorem selectRecs_empty_of_empty (rs : List JVal) (p q : String)
    (h : selectRecs rs p = []) : selectRecs (selectRecs rs q) p = [] := by
  rw [selectRecs, selectRecs, List.filter_filter]
  rw [selectRecs, List.filter_eq_nil_iff] at h
  rw [List.filter_eq_nil_iff]
  intro a ha
  simp [h a ha]

/-- Claim C8: the today-filtering step of lines 196-202 is a deterministic
function of its input, it agrees with the record-level selection
`todaySelect` over the full record list, and `todaySelect` is idempotent:
filtering an already-filtered record list with the same date prefix and
current timestamp returns it unchanged. -/
theorem C8_filter_idempotent (times temps codes precs : List JVal) (today : String)
    (ct : Option JVal) (rs : List JVal) :
    todayHours times temps codes precs today ct
      = todaySelect (allHourRows times temps codes precs) today ct ∧
    todaySelect (todaySelect rs today ct) today ct = todaySelect rs today ct := by
  constructor
  · unfold todayHours todaySelect
    simp only [selectRecs_build]
  · by_cases h : selectRecs rs today = []
    · cases ct with
      | none => simp [todaySelect, h, selectRecs]
      | some v =>
        cases v with
        | str s =>
          by_cases hlen : 10 ≤ pyLen s
          · simp [todaySelect, h, hlen, selectRecs_empty_of_empty rs today (pySlice s 10) h,
              selectRecs_idem]
          · simp [todaySelect, h, hlen, selectRecs]
        | null => simp [todaySelect, h, selectRecs]
        | int n => simp [todaySelect, h, selectRecs]
        | arr xs => simp [todaySelect, h, selectRecs]
        | obj kvs => simp [todaySelect, h, selectRecs]
    · have hsel : todaySelect rs today ct = selectRecs rs today := by
        simp [todaySelect, h]
      rw [hsel]
      have h2 : selectRecs (selectRecs rs today) today = selectRecs rs today :=
        selectRecs_idem rs today
      simp [todaySelect, h2, h]
